import Mathlib

/-!
Shallow embedding of the orca backend core (session registry, kernel manager,
machine forwarder, container manager, executor) and proofs about the claims of
its specification.

External effects (Redis, the Docker engine, the Jupyter kernel processes, HTTP)
are modelled as explicit environment values: the kernel message channel is a
finite script of observed poll results, Redis is an explicit key-value state
with an availability mode, and Docker is an explicit id-to-container map.
Clock readings are in milliseconds.
-/

/-- Python exception values raised by the code paths under study.  Quote
characters appearing in CPython message texts are omitted. -/
inductive PyErr where
  | valueError (msg : String)
  | typeError (msg : String)
  | keyError (key : String)
  | attributeError (msg : String)
  | timeoutError (msg : String)
  | redisError (msg : String)
  | jsonDecodeError (msg : String)
  | exception (msg : String)
deriving Repr, DecidableEq

/-- Model of `str(e)` for the exceptions above. -/
def PyErr.msg : PyErr → String
  | .valueError m => m
  | .typeError m => m
  | .keyError k => k
  | .attributeError m => m
  | .timeoutError m => m
  | .redisError m => m
  | .jsonDecodeError m => m
  | .exception m => m

/-- A dynamically typed Python value, as far as the code under study needs:
`bytes` (as returned by the Redis client) versus `str`. -/
inductive PyVal where
  | pystr (s : String)
  | pybytes (s : String)
deriving Repr, DecidableEq

/-- Model of `v.decode()`: defined on `bytes`, an `AttributeError` on `str`. -/
def PyVal.decode : PyVal → Except PyErr PyVal
  | .pybytes s => .ok (.pystr s)
  | .pystr _ => .error (.attributeError "str object has no attribute decode")

/-- Python truthiness of the value (empty strings and empty bytes are falsy). -/
def PyVal.truthy : PyVal → Bool
  | .pystr s => s ≠ ""
  | .pybytes s => s ≠ ""

def PyVal.asString : PyVal → String
  | .pystr s => s
  | .pybytes s => s

/-- Association-list lookup, modelling dictionary / key-value-store reads. -/
def lookupKey {α : Type} (l : List (String × α)) (k : String) : Option α :=
  match l with
  | [] => none
  | (k2, v) :: rest => if k2 = k then some v else lookupKey rest k

/-- Association-list insert-or-replace, modelling dictionary / store writes. -/
def upsertKey {α : Type} (l : List (String × α)) (k : String) (v : α) :
    List (String × α) :=
  match l with
  | [] => [(k, v)]
  | (k2, v2) :: rest => if k2 = k then (k, v) :: rest else (k2, v2) :: upsertKey rest k v

/-- Association-list key removal.  Store keys are unique, so removing every
binding of the key models deletion. -/
def removeKey {α : Type} (l : List (String × α)) (k : String) : List (String × α) :=
  l.filter (fun p => p.1 ≠ k)

/-- Dictionary key-set insertion (handles of the kernel maps are external
process objects, so the maps are tracked by their key lists). -/
def dictInsertKey (ks : List String) (k : String) : List String :=
  if k ∈ ks then ks else ks ++ [k]

/-- Dictionary key-set deletion (`del d[k]`); dict keys are unique, so removing
every occurrence models it. -/
def dictEraseKey (ks : List String) (k : String) : List String :=
  ks.filter (fun x => x ≠ k)

/-! ## Session registry (src/backend/session_registry.py) -/

/-- The JSON record `register_session` stores under `session:{session_id}`. -/
structure RegRecord where
  machine_id : String
  machine_address : String
  session_id : String
deriving Repr, DecidableEq

/-- A value held by the backing store: a well-formed session record, or raw
text that `json.loads` rejects. -/
inductive StoreVal where
  | record (r : RegRecord)
  | malformed (raw : String)
deriving Repr, DecidableEq

/-- Model of `json.loads(data)` followed by field access, on a stored value. -/
def jsonLoadsRecord : StoreVal → Except PyErr RegRecord
  | .record r => .ok r
  | .malformed s => .error (.jsonDecodeError s)

/-- A stored entry together with its remaining time-to-live (seconds). -/
structure RedisEntry where
  value : StoreVal
  ttl : Nat
deriving Repr, DecidableEq

/-- Connectivity mode of the backing key-value store:
`unavailable` — the client is `None` (the connection failed at startup);
`unreachable` — a client exists but every call raises `RedisError`;
`reachable` — calls succeed against the given store contents. -/
inductive RedisConn where
  | unavailable
  | unreachable
  | reachable (store : List (String × RedisEntry))
deriving Repr, DecidableEq

/-- Model of `redis.setex(key, ttl, value)`. -/
def redisSetex (conn : RedisConn) (key : String) (ttl : Nat) (v : StoreVal) :
    Except PyErr RedisConn :=
  match conn with
  | .unavailable => .error (.attributeError "NoneType object has no attribute setex")
  | .unreachable => .error (.redisError "connection refused")
  | .reachable store => .ok (.reachable (upsertKey store key { value := v, ttl := ttl }))

/-- Model of `redis.get(key)`. -/
def redisGet (conn : RedisConn) (key : String) : Except PyErr (Option StoreVal) :=
  match conn with
  | .unavailable => .error (.attributeError "NoneType object has no attribute get")
  | .unreachable => .error (.redisError "connection refused")
  | .reachable store => .ok ((lookupKey store key).map RedisEntry.value)

/-- Model of `redis.delete(key)`. -/
def redisDelete (conn : RedisConn) (key : String) : Except PyErr RedisConn :=
  match conn with
  | .unavailable => .error (.attributeError "NoneType object has no attribute delete")
  | .unreachable => .error (.redisError "connection refused")
  | .reachable store => .ok (.reachable (removeKey store key))

/-- Model of `redis.expire(key, ttl)`. -/
def redisExpire (conn : RedisConn) (key : String) (ttl : Nat) : Except PyErr RedisConn :=
  match conn with
  | .unavailable => .error (.attributeError "NoneType object has no attribute expire")
  | .unreachable => .error (.redisError "connection refused")
  | .reachable store =>
    .ok (.reachable (match lookupKey store key with
      | some e => upsertKey store key { e with ttl := ttl }
      | none => store))

/-- State built by `SessionRegistry.__init__`: connection mode plus this machine's
identity and internal address. -/
structure SessionRegistry where
  conn : RedisConn
  machine_id : String
  machine_address : String
deriving Repr, DecidableEq

/-- Model of `SessionRegistry.register_session`: store the session record under
`session:{sid}` with the given TTL; `RedisError` is caught and turns into a
`False` return; with no client the call returns `False` directly. -/
def SessionRegistry.register_session (reg : SessionRegistry) (sid : String)
    (ttl : Nat) : Except PyErr (Bool × SessionRegistry) :=
  match reg.conn with
  | .unavailable => .ok (false, reg)
  | _ =>
    match redisSetex reg.conn ("session:" ++ sid) ttl
        (.record { machine_id := reg.machine_id, machine_address := reg.machine_address,
                   session_id := sid }) with
    | .ok conn2 => .ok (true, { reg with conn := conn2 })
    | .error (.redisError _) => .ok (false, reg)
    | .error e => .error e

/-- Model of `SessionRegistry.get_session_machine`: read and parse the record, returning
its `machine_id`; `RedisError` and `JSONDecodeError` are caught and yield
`None`, as does an absent key or an absent client. -/
def SessionRegistry.get_session_machine (reg : SessionRegistry) (sid : String) :
    Except PyErr (Option String) :=
  match reg.conn with
  | .unavailable => .ok none
  | _ =>
    match (do
        let data ← redisGet reg.conn ("session:" ++ sid)
        match data with
        | some v => do
          let r ← jsonLoadsRecord v
          pure (some r.machine_id)
        | none => pure none : Except PyErr (Option String)) with
    | .ok x => .ok x
    | .error (.redisError _) => .ok none
    | .error (.jsonDecodeError _) => .ok none
    | .error e => .error e

/-- Model of `SessionRegistry.get_session_machine_address`: like `get_session_machine`
but returning the stored `machine_address`. -/
def SessionRegistry.get_session_machine_address (reg : SessionRegistry) (sid : String) :
    Except PyErr (Option String) :=
  match reg.conn with
  | .unavailable => .ok none
  | _ =>
    match (do
        let data ← redisGet reg.conn ("session:" ++ sid)
        match data with
        | some v => do
          let r ← jsonLoadsRecord v
          pure (some r.machine_address)
        | none => pure none : Except PyErr (Option String)) with
    | .ok x => .ok x
    | .error (.redisError _) => .ok none
    | .error (.jsonDecodeError _) => .ok none
    | .error e => .error e

/-- Model of `SessionRegistry.unregister_session`: delete the key; `RedisError` is
caught and ignored. -/
def SessionRegistry.unregister_session (reg : SessionRegistry) (sid : String) :
    Except PyErr SessionRegistry :=
  match reg.conn with
  | .unavailable => .ok reg
  | _ =>
    match redisDelete reg.conn ("session:" ++ sid) with
    | .ok conn2 => .ok { reg with conn := conn2 }
    | .error (.redisError _) => .ok reg
    | .error e => .error e

/-- Model of `SessionRegistry.extend_session_ttl`: refresh the expiry of the key;
`RedisError` is caught and ignored. -/
def SessionRegistry.extend_session_ttl (reg : SessionRegistry) (sid : String)
    (ttl : Nat) : Except PyErr SessionRegistry :=
  match reg.conn with
  | .unavailable => .ok reg
  | _ =>
    match redisExpire reg.conn ("session:" ++ sid) ttl with
    | .ok conn2 => .ok { reg with conn := conn2 }
    | .error (.redisError _) => .ok reg
    | .error e => .error e

/-- Observation: does the backing store currently hold a record for `sid`? -/
def SessionRegistry.hasSession (reg : SessionRegistry) (sid : String) : Bool :=
  match reg.conn with
  | .reachable store => (lookupKey store ("session:" ++ sid)).isSome
  | _ => false

/-- Decidable equality for `Except`, needed so environment and outcome values
can be compared by `decide` in concrete runs. -/
instance {ε α : Type} [DecidableEq ε] [DecidableEq α] : DecidableEq (Except ε α) := fun x y =>
  match x, y with
  | .ok a, .ok b =>
    if h : a = b then .isTrue (by rw [h]) else .isFalse (fun hh => h (Except.ok.inj hh))
  | .ok _, .error _ => .isFalse (fun hh => Except.noConfusion hh)
  | .error _, .ok _ => .isFalse (fun hh => Except.noConfusion hh)
  | .error e, .error f =>
    if h : e = f then .isTrue (by rw [h]) else .isFalse (fun hh => h (Except.error.inj hh))

/-! ## Machine forwarder (src/backend/machine_forwarder.py) -/

/-- Execution result in the kernel / SessionExecuteResponse shape. -/
structure ExecResult where
  stdout : String
  stderr : String
  result : Option String
  success : Bool
deriving Repr, DecidableEq

/-- The JSON body of a remote `/sessions/execute` response; every field is
optional, read with `.get(...)` defaults. -/
structure RawResp where
  stdout : Option String
  stderr : Option String
  result : Option String
  success : Option Bool
deriving Repr, DecidableEq

/-- Outcome of the HTTP POST issued by the forwarder: a parsed JSON body, or
an `httpx.HTTPError` message (connection failure, non-2xx status, timeout). -/
structure HttpEnv where
  response : Except String RawResp
deriving Repr, DecidableEq

/-- Model of `MachineForwarder.forward_execute_request(machine_address, session_id,
code, timeout)`: POST `{session_id, code, timeout}` to
`{machine_address}/sessions/execute` and normalize the JSON response; any
`httpx.HTTPError` is re-raised as a generic `Exception` naming the target. -/
def MachineForwarder.forward_execute_request (henv : HttpEnv)
    (machine_address _session_id _code : String) (_timeout : Nat) :
    Except PyErr ExecResult :=
  match henv.response with
  | .ok r =>
    .ok { stdout := r.stdout.getD "", stderr := r.stderr.getD "",
          result := r.result, success := r.success.getD false }
  | .error m =>
    .error (.exception ("Failed to forward request to " ++ machine_address ++ ": " ++ m))

/-- The parameter names of `MachineForwarder.forward_execute_request`
(after `self`). -/
def forwardExecuteRequestParams : List String :=
  ["machine_address", "session_id", "code", "timeout"]

/-- The keyword names used at the call site inside
`KernelManager.execute_code` (kernel_manager.py lines 130-135). -/
def executeCodeForwardKeywords : List String :=
  ["machine_id", "session_id", "code", "timeout"]

/-- Python keyword-argument binding: a keyword that is not among the callee
parameter names raises `TypeError` at the call, before the body runs. -/
def bindKwargs (fname : String) (params kwargs : List String) : Except PyErr Unit :=
  match kwargs.find? (fun k => !params.contains k) with
  | some k => .error (.typeError (fname ++ "() got an unexpected keyword argument " ++ k))
  | none => .ok ()

/-! ## Kernel channel events (src/backend/kernel_manager.py execute loop) -/

/-- One message from the kernel iopub channel, as classified by the loop. -/
inductive IopubMsg where
  | stream (name text : String)
  | executeResult (textPlain : String)
  | statusMsg (execution_state : String)
  | errorMsg (traceback : List String)
  | otherMsg
deriving Repr, DecidableEq

/-- One iteration-worth of observed channel behaviour:
`iopub dt m` — an iopub message `m` arrived after `dt` ms (the wait is bounded
by 1000 ms);
`shellReply dt status tb` — the 1.0 s iopub wait timed out and the shell reply
arrived within the 0.1 s wait (`dt` ≤ 100 ms extra);
`noMsg` — both waits timed out (1000 ms + 100 ms elapse, loop continues). -/
inductive KEvent where
  | iopub (dt : Nat) (m : IopubMsg)
  | shellReply (dt : Nat) (status : String) (traceback : List String)
  | noMsg
deriving Repr, DecidableEq

/-- Well-formedness of an observed event: each wait respects its bound. -/
def KEvent.wfB : KEvent → Bool
  | .iopub dt _ => dt ≤ 1000
  | .shellReply dt _ _ => dt ≤ 100
  | .noMsg => true

/-- Wall-clock cost of the event, in milliseconds. -/
def KEvent.dur : KEvent → Nat
  | .iopub dt _ => dt
  | .shellReply dt _ _ => 1000 + dt
  | .noMsg => 1100

/-- Outcome of the output-collection loop: `timedOut e` is the `TimeoutError`
raised when the deadline check fired at clock value `e`; `completed` carries
the collected stdout pieces, stderr pieces and last execute-result. -/
inductive RunOut where
  | timedOut (elapsed : Nat)
  | completed (stdoutParts stderrParts : List String) (result : Option String)
deriving Repr, DecidableEq

/-- Clock value at which the deadline check first fires when every remaining
poll yields nothing: starting from `elapsed`, each further iteration costs the
full 1000 ms iopub wait plus the 100 ms shell wait and adds no output. -/
def idleTimeoutAt (timeoutMs elapsed : Nat) : Nat :=
  elapsed + 1100 * ((timeoutMs - elapsed + 1099) / 1100)

/-- The output-collection loop of `KernelManager.execute_code`
(kernel_manager.py lines 167-228), driven by the finite script `events` of
observed channel behaviour.  Once the script is exhausted no further message
ever arrives, so the loop keeps polling fruitlessly (1100 ms per iteration)
until the deadline check at the top of the loop fires; `idleTimeoutAt` is the
clock value at which that happens. -/
def drainLoop (timeoutMs : Nat) (events : List KEvent) (elapsed : Nat)
    (stdoutParts stderrParts : List String) (result : Option String) : RunOut :=
  if timeoutMs ≤ elapsed then
    .timedOut elapsed
  else
    match events with
    | [] => .timedOut (idleTimeoutAt timeoutMs (elapsed + 1100))
    | ev :: rest =>
      match ev with
      | .iopub dt m =>
        match m with
        | .stream name text =>
          if name = "stdout" then
            drainLoop timeoutMs rest (elapsed + dt) (stdoutParts ++ [text]) stderrParts result
          else if name = "stderr" then
            drainLoop timeoutMs rest (elapsed + dt) stdoutParts (stderrParts ++ [text]) result
          else
            drainLoop timeoutMs rest (elapsed + dt) stdoutParts stderrParts result
        | .executeResult t =>
          drainLoop timeoutMs rest (elapsed + dt) stdoutParts stderrParts (some t)
        | .statusMsg s =>
          if s = "idle" then .completed stdoutParts stderrParts result
          else drainLoop timeoutMs rest (elapsed + dt) stdoutParts stderrParts result
        | .errorMsg tb =>
          .completed stdoutParts (stderrParts ++ [String.intercalate "\n" tb]) result
        | .otherMsg =>
          drainLoop timeoutMs rest (elapsed + dt) stdoutParts stderrParts result
      | .shellReply _ status tb =>
        if status = "error" then
          .completed stdoutParts (stderrParts ++ [String.intercalate "\n" tb]) result
        else .completed stdoutParts stderrParts result
      | .noMsg =>
        drainLoop timeoutMs rest (elapsed + 1100) stdoutParts stderrParts result

/-! ## Kernel manager (src/backend/kernel_manager.py) -/

/-- Requests sent to a kernel process over its channels. -/
inductive KernelAction where
  | execMsg (code : String)
  | interrupt
deriving Repr, DecidableEq

/-- State of `KernelManager`: the key sets of the `kernels` and `kernel_clients`
dictionaries (the values are external process/client objects), the capacity
ceiling, and the optional distributed registry. -/
structure KMState where
  kernels : List String
  kernel_clients : List String
  max_sessions_per_machine : Nat
  registry : Option SessionRegistry
deriving Repr, DecidableEq

/-- What the externally observed startup sequence did before the maps were
updated: succeeded, or raised after possibly spawning a process. -/
inductive StartupOutcome where
  | ok
  | fail (spawned : Bool) (msg : String)
deriving Repr, DecidableEq

/-- The capacity error message of `create_session`. -/
def capacityMessage (n : Nat) : String :=
  "Maximum sessions per machine reached (" ++ toString n ++
    "). Please wait for other sessions to end or scale to more machines."

/-- Result of `create_session`: outcome, resulting state, and whether a kernel
process spawn was attempted. -/
structure CreateOut where
  outcome : Except PyErr String
  state : KMState
  spawned : Bool
deriving Repr, DecidableEq

/-- Model of `KernelManager.create_session`: reject with the capacity error before
anything is allocated when the live-session count has reached the ceiling;
otherwise run the startup sequence, insert the handle and client under the
fresh id, and register the session; any startup exception triggers rollback
(shut the partial process down, drop any partial map entries) and re-raises
as a startup failure. -/
def KernelManager.create_session (st : KMState) (freshId : String)
    (outcome : StartupOutcome) : CreateOut :=
  if st.max_sessions_per_machine ≤ st.kernels.length then
    { outcome := .error (.exception (capacityMessage st.max_sessions_per_machine)),
      state := st, spawned := false }
  else
    match outcome with
    | .fail spawned msg =>
      let st1 := { st with
        kernels := if freshId ∈ st.kernels then dictEraseKey st.kernels freshId
                   else st.kernels,
        kernel_clients := if freshId ∈ st.kernel_clients then
                            dictEraseKey st.kernel_clients freshId
                          else st.kernel_clients }
      { outcome := .error (.exception ("Failed to create kernel: " ++ msg)),
        state := st1, spawned := spawned }
    | .ok =>
      let st1 := { st with
        kernels := dictInsertKey st.kernels freshId,
        kernel_clients := dictInsertKey st.kernel_clients freshId }
      match st1.registry with
      | none => { outcome := .ok freshId, state := st1, spawned := true }
      | some reg =>
        match reg.register_session freshId 3600 with
        | .ok (_, reg2) =>
          { outcome := .ok freshId, state := { st1 with registry := some reg2 },
            spawned := true }
        | .error e =>
          -- exception propagates into the rollback handler
          let st2 := { st1 with
            kernels := dictEraseKey st1.kernels freshId,
            kernel_clients := dictEraseKey st1.kernel_clients freshId }
          { outcome := .error (.exception ("Failed to create kernel: " ++ e.msg)),
            state := st2, spawned := true }

/-- The TTL-extension step at the top of the local execution path. -/
def KernelManager.extendTTLStep (st : KMState) (sid : String) : Except PyErr KMState :=
  match st.registry with
  | none => .ok st
  | some reg =>
    match reg.extend_session_ttl sid 3600 with
    | .ok reg2 => .ok { st with registry := some reg2 }
    | .error e => .error e

/-- Result of `execute_code`: outcome, resulting state, and the requests that
were sent to the local kernel. -/
structure KMExecOut where
  outcome : Except PyErr ExecResult
  state : KMState
  actions : List KernelAction
deriving Repr, DecidableEq

/-- Model of `KernelManager.execute_code` (kernel_manager.py lines 106-235).
If no local client exists: consult the registry; a remote owner leads to the
forwarding call — which passes the keyword `machine_id` to a function whose
parameters are `(machine_address, session_id, code, timeout)` — while an
absent registry entry and a local-but-missing handle raise distinct
`ValueError`s.  Locally: refresh the TTL, submit the code, and drain the
output channel under the wall-clock budget (`timeout` in seconds). -/
def KernelManager.execute_code (st : KMState) (henv : HttpEnv)
    (events : List KEvent) (session_id code : String) (timeout : Nat)
    (forward_if_needed : Bool) : KMExecOut :=
  if session_id ∈ st.kernel_clients then
    match KernelManager.extendTTLStep st session_id with
    | .error e => { outcome := .error e, state := st, actions := [] }
    | .ok st1 =>
      match drainLoop (timeout * 1000) events 0 [] [] none with
      | .timedOut _ =>
        { outcome := .error (.timeoutError
            ("Code execution timed out after " ++ toString timeout ++ " seconds")),
          state := st1, actions := [.execMsg code] }
      | .completed outParts errParts res =>
        { outcome := .ok { stdout := String.join outParts,
                           stderr := String.join errParts,
                           result := res,
                           success := errParts.length == 0 },
          state := st1, actions := [.execMsg code] }
  else
    match st.registry, forward_if_needed with
    | some reg, true =>
      match reg.get_session_machine session_id with
      | .error e => { outcome := .error e, state := st, actions := [] }
      | .ok mid =>
        match mid with
        | some m =>
          if m ≠ "" ∧ m ≠ reg.machine_id then
            match bindKwargs "forward_execute_request" forwardExecuteRequestParams
                executeCodeForwardKeywords with
            | .error e => { outcome := .error e, state := st, actions := [] }
            | .ok _ =>
              -- unreachable: the keyword binding above always raises TypeError
              match MachineForwarder.forward_execute_request henv m session_id code timeout with
              | .error e => { outcome := .error e, state := st, actions := [] }
              | .ok r =>
                { outcome := .ok { stdout := r.stdout, stderr := r.stderr,
                                   result := r.result, success := r.success },
                  state := st, actions := [] }
          else
            { outcome := .error (.valueError
                ("Session " ++ session_id ++ " registered but kernel not found locally")),
              state := st, actions := [] }
        | none =>
          { outcome := .error (.valueError ("Session " ++ session_id ++ " not found")),
            state := st, actions := [] }
    | _, _ =>
      { outcome := .error (.valueError ("Session " ++ session_id ++ " not found")),
        state := st, actions := [] }

/-- Model of `KernelManager.delete_session`: if a local handle exists, shut the kernel
down (force/immediate; the process side is external) and delete both map
entries, then unregister the session from the registry; the workspace
directory is left in place. -/
def KernelManager.delete_session (st : KMState) (sid : String) :
    Except PyErr Unit × KMState :=
  if sid ∈ st.kernels then
    let st1 := { st with kernels := dictEraseKey st.kernels sid }
    if sid ∈ st1.kernel_clients then
      let st2 := { st1 with kernel_clients := dictEraseKey st1.kernel_clients sid }
      match st2.registry with
      | none => (.ok (), st2)
      | some reg =>
        match reg.unregister_session sid with
        | .ok reg2 => (.ok (), { st2 with registry := some reg2 })
        | .error e => (.error e, st2)
    else
      (.error (.keyError sid), st1)
  else
    match st.registry with
    | none => (.ok (), st)
    | some reg =>
      match reg.unregister_session sid with
      | .ok reg2 => (.ok (), { st with registry := some reg2 })
      | .error e => (.error e, st)

/-- Model of `KernelManager.list_sessions`: the keys of the `kernels` map. -/
def KernelManager.list_sessions (st : KMState) : List String :=
  st.kernels

/-! ## Container manager (src/backend/services/container_manager.py) -/

/-- A Docker container as the manager sees it: id, name
(`orca-user-{user_id}`) and engine-reported status. -/
structure ContainerInfo where
  id : String
  name : String
  status : String
deriving Repr, DecidableEq

/-- State and environment of `ContainerManager`: whether the Redis client was
created, the Redis keys this component reads and writes
(`user:{uid}:container` and `container:{id}:last_used`), the engine's
containers by id, the workspace root, and what `_create_container` would
produce next (or the startup failure it would raise). -/
structure CMState where
  redis_available : Bool
  kv : List (String × String)
  docker : List (String × ContainerInfo)
  workspace_root : String
  createOutcome : Except String ContainerInfo
deriving Repr, DecidableEq

/-- Model of `ContainerManager._create_container` (plus `_wait_for_kernel_ready`):
make the workspace and kernel directories, run a container named
`orca-user-{user_id}` with resource limits and mounts, and block until the
connection descriptor appears; exhausting the wait raises. -/
def ContainerManager.create_container (st : CMState) (user_id : String) :
    Except PyErr (ContainerInfo × CMState) :=
  match st.createOutcome with
  | .error m => .error (.exception m)
  | .ok c0 =>
    let c := { c0 with name := "orca-user-" ++ user_id }
    .ok (c, { st with docker := upsertKey st.docker c.id c })

/-- The creation tail of `get_or_create_container`: create a container and,
when Redis is available, cache its id for the user and stamp `last_used`
(timestamps are external; the stored text is irrelevant to the claims). -/
def ContainerManager.createAndCache (st : CMState) (user_id : String) :
    Except PyErr (ContainerInfo × CMState) :=
  match ContainerManager.create_container st user_id with
  | .error e => .error e
  | .ok (c, st1) =>
    if st1.redis_available then
      let kv1 := upsertKey st1.kv ("user:" ++ user_id ++ ":container") c.id
      let kv2 := upsertKey kv1 ("container:" ++ c.id ++ ":last_used") "now"
      .ok (c, { st1 with kv := kv2 })
    else .ok (c, st1)

/-- Model of `ContainerManager.get_or_create_container` (container_manager.py lines
112-170), transcribed with Python dynamic typing made explicit: the Redis
read yields `bytes`, which line 130 decodes to `str`; line 133 then calls
`.decode()` on that `str` again.  The reuse branch (return the running
container after stamping `last_used`) and the stale-eviction branch (drop the
cache key and create anew) follow it verbatim. -/
def ContainerManager.get_or_create_container (st : CMState) (user_id : String) :
    Except PyErr (ContainerInfo × CMState) :=
  -- self._ensure_docker_client(): the engine is modelled as connected
  let cacheKey := "user:" ++ user_id ++ ":container"
  let container_id_bytes : Option PyVal :=
    if st.redis_available then (lookupKey st.kv cacheKey).map PyVal.pybytes else none
  match (match container_id_bytes with
         | some b => if b.truthy then (b.decode).map some else .ok none
         | none => .ok none : Except PyErr (Option PyVal)) with
  | .error e => .error e
  | .ok container_id =>
    match container_id with
    | some cid =>
      if cid.truthy then
        match cid.decode with   -- line 133: container_id = container_id.decode()
        | .error e => .error e
        | .ok cid2 =>
          -- unreachable: cid is a str, so the decode above raises AttributeError
          match lookupKey st.docker cid2.asString with
          | some container =>
            if container.status = "running" then
              let kvStamped := upsertKey st.kv
                ("container:" ++ container.id ++ ":last_used") "now"
              let st1 :=
                if st.redis_available then { st with kv := kvStamped } else st
              .ok (container, st1)
            else
              let st1 :=
                if st.redis_available then { st with kv := removeKey st.kv cacheKey }
                else st
              ContainerManager.createAndCache st1 user_id
          | none =>  -- docker.errors.NotFound
            let st1 :=
              if st.redis_available then { st with kv := removeKey st.kv cacheKey }
              else st
            ContainerManager.createAndCache st1 user_id
      else ContainerManager.createAndCache st user_id
    | none => ContainerManager.createAndCache st user_id

/-- Model of `ContainerManager.get_container_connection_info`: derive the user id from
the container name and return the connection-file path, raising when the file
does not exist. -/
def ContainerManager.get_container_connection_info (st : CMState)
    (c : ContainerInfo) (fileExists : Bool) : Except PyErr String :=
  let user_id := c.name.replace "orca-user-" ""
  let connection_file := st.workspace_root ++ "/" ++ user_id ++ "/kernel/connection.json"
  if fileExists then .ok connection_file
  else .error (.exception ("Connection file not found: " ++ connection_file))

/-! ## Executor (src/backend/services/executor.py) -/

/-- The `data` dict of a display/result message, as far as the classifier
reads it. -/
structure ExData where
  png : Option String
  jpeg : Option String
  html : Option String
  textPlain : Option String
deriving Repr, DecidableEq

/-- A captured display payload (`plots` list entries). -/
inductive Plot where
  | image (format : String) (data : String)
  | htmlPlot (data : String)
deriving Repr, DecidableEq

/-- One message from the kernel iopub channel, in the Executor's richer
classification. -/
inductive ExMsg where
  | stream (name text : String)
  | displayData (d : ExData)
  | executeResult (d : ExData)
  | statusMsg (execution_state : String)
  | errorMsg (ename evalue : String) (traceback : List String)
  | otherMsg
deriving Repr, DecidableEq

/-- One iteration-worth of observed channel behaviour for the Executor loop:
a message after `dt` ms, a 1 s poll timeout (`continue`), or a non-timeout
poll failure (logged, `break`). -/
inductive ExEvent where
  | iopub (dt : Nat) (m : ExMsg)
  | pollTimeout
  | pollError (msg : String)
deriving Repr, DecidableEq

/-- Outcome of the Executor's collection loop, plus whether the timeout branch
fired (`kernel_client.interrupt()` is called exactly there). -/
structure ExLoopOut where
  stdout : String
  stderr : String
  plots : List Plot
  results : List ExData
  interrupted : Bool
deriving Repr, DecidableEq

/-- The collection loop of `Executor._execute_code` (executor.py lines
137-206).  The deadline check `time.time() - start_time > timeout` is strict;
on exhaustion the kernel is interrupted and a timeout note is appended to
stderr before breaking.  Once the event script is exhausted every poll raises
a timeout (1000 ms, `continue`) until the deadline check fires with the
accumulators unchanged. -/
def execLoop (timeoutSec : Nat) (events : List ExEvent) (elapsed : Nat)
    (stdout stderr : String) (plots : List Plot) (results : List ExData) : ExLoopOut :=
  if timeoutSec * 1000 < elapsed then
    { stdout := stdout,
      stderr := stderr ++ "\nExecution timeout after " ++ toString timeoutSec ++ " seconds",
      plots := plots, results := results, interrupted := true }
  else
    match events with
    | [] =>
      { stdout := stdout,
        stderr := stderr ++ "\nExecution timeout after " ++ toString timeoutSec ++ " seconds",
        plots := plots, results := results, interrupted := true }
    | e0 :: rest =>
      match e0 with
      | .iopub dt m =>
        match m with
        | .stream name text =>
          if name = "stdout" then
            execLoop timeoutSec rest (elapsed + dt) (stdout ++ text) stderr plots results
          else if name = "stderr" then
            execLoop timeoutSec rest (elapsed + dt) stdout (stderr ++ text) plots results
          else
            execLoop timeoutSec rest (elapsed + dt) stdout stderr plots results
        | .displayData d =>
          match d.png with
          | some p =>
            execLoop timeoutSec rest (elapsed + dt) stdout stderr
              (plots ++ [.image "png" p]) results
          | none =>
            match d.jpeg with
            | some p =>
              execLoop timeoutSec rest (elapsed + dt) stdout stderr
                (plots ++ [.image "jpeg" p]) results
            | none =>
              match d.html with
              | some hh =>
                execLoop timeoutSec rest (elapsed + dt) stdout stderr
                  (plots ++ [.htmlPlot hh]) results
              | none =>
                execLoop timeoutSec rest (elapsed + dt) stdout stderr plots results
        | .executeResult d =>
          execLoop timeoutSec rest (elapsed + dt) stdout stderr plots (results ++ [d])
        | .statusMsg s =>
          if s = "idle" then
            { stdout := stdout, stderr := stderr, plots := plots, results := results,
              interrupted := false }
          else execLoop timeoutSec rest (elapsed + dt) stdout stderr plots results
        | .errorMsg en eva tb =>
          { stdout := stdout,
            stderr := stderr ++ en ++ ": " ++ eva ++ "\n" ++ String.intercalate "\n" tb,
            plots := plots, results := results, interrupted := false }
        | .otherMsg =>
          execLoop timeoutSec rest (elapsed + dt) stdout stderr plots results
      | .pollTimeout =>
        execLoop timeoutSec rest (elapsed + 1000) stdout stderr plots results
      | .pollError _ =>
        { stdout := stdout, stderr := stderr, plots := plots, results := results,
          interrupted := false }

/-- The Executor's result shape. -/
structure RichResult where
  stdout : String
  stderr : String
  plots : List Plot
  results : List ExData
  success : Bool
deriving Repr, DecidableEq

/-- Environment of one `_execute_code` run: whether submitting the code raised
(outer `except` path), the observed iopub events, and the final
`get_shell_msg` status (`none` when that fetch raised and the
`len(stderr) == 0` fallback applies). -/
structure ExecEnv where
  submitError : Option String
  events : List ExEvent
  finalShellStatus : Option String
deriving Repr, DecidableEq

/-- Model of `Executor._execute_code` (executor.py lines 108-226): submit the code,
run the collection loop, then determine `success` from the final shell reply
status, falling back to `len(stderr) == 0`; exceptions around submission are
caught into the result.  Also returns the requests sent to the kernel. -/
def Executor.execute_code_run (xenv : ExecEnv) (code : String) (timeoutSec : Nat) :
    RichResult × List KernelAction :=
  match xenv.submitError with
  | some m =>
    ({ stdout := "", stderr := "\nExecution error: " ++ m, plots := [], results := [],
       success := false }, [])
  | none =>
    let lo := execLoop timeoutSec xenv.events 0 "" "" [] []
    let success :=
      match xenv.finalShellStatus with
      | some status => status == "ok"
      | none => lo.stderr.length == 0
    ({ stdout := lo.stdout, stderr := lo.stderr, plots := lo.plots,
       results := lo.results, success := success },
     .execMsg code :: (if lo.interrupted then [KernelAction.interrupt] else []))

/-- Environment of `_get_kernel_client`: state of the per-container client
cache probe (`some true` — cached and the `get_shell_msg` probe succeeded;
`some false` — cached but the probe raised, so the entry is dropped; `none` —
no cached client), whether the connection file exists, and whether the
`kernel_info` verification raised. -/
structure ClientEnv where
  cachedProbeAlive : Option Bool
  connectionFileExists : Bool
  kernelInfoError : Option String
deriving Repr, DecidableEq

/-- Model of `Executor._get_kernel_client` (executor.py lines 62-106): reuse a live
cached client; otherwise load the connection file, start channels, and verify
the kernel responds, raising a connection failure if not. -/
def Executor.get_kernel_client (st : CMState) (cenv : ClientEnv)
    (c : ContainerInfo) : Except PyErr Unit :=
  match cenv.cachedProbeAlive with
  | some true => .ok ()
  | _ =>
    match ContainerManager.get_container_connection_info st c cenv.connectionFileExists with
    | .error e => .error e
    | .ok _file =>
      match cenv.kernelInfoError with
      | some m => .error (.exception ("Kernel connection failed: " ++ m))
      | none => .ok ()

/-- The `try` block of `Executor.execute` (executor.py lines 40-50): resolve
the container, obtain a kernel client, and run the execution. -/
def Executor.executeBody (cm : CMState) (cenv : ClientEnv) (xenv : ExecEnv)
    (user_id code : String) (timeoutSec : Nat) : Except PyErr RichResult :=
  match ContainerManager.get_or_create_container cm user_id with
  | .error e => .error e
  | .ok (container, cm1) =>
    match Executor.get_kernel_client cm1 cenv container with
    | .error e => .error e
    | .ok _ => .ok (Executor.execute_code_run xenv code timeoutSec).1

/-- Model of `Executor.execute` (executor.py lines 23-60): any exception from the body
is caught and returned as the fixed error-shaped result. -/
def Executor.execute (cm : CMState) (cenv : ClientEnv) (xenv : ExecEnv)
    (user_id code : String) (timeoutSec : Nat) : Except PyErr RichResult :=
  match Executor.executeBody cm cenv xenv user_id code timeoutSec with
  | .ok r => .ok r
  | .error e =>
    .ok { stdout := "", stderr := "Execution error: " ++ e.msg, plots := [],
          results := [], success := false }

/-! ## Basic lemmas about the helper structures -/

theorem stringAppendLeftCancel (a : String) {b c : String} (h : a ++ b = a ++ c) :
    b = c := by
  apply String.ext
  have hd := congrArg String.data h
  rw [String.data_append, String.data_append] at hd
  exact List.append_cancel_left hd

theorem stringAppendNeEmptyRight (x : String) {y : String} (hy : y ≠ "") :
    x ++ y ≠ "" := by
  intro h
  apply hy
  apply String.ext
  have hd := congrArg String.data h
  rw [String.data_append] at hd
  have : y.data = [] := (List.append_eq_nil.mp hd).2
  simpa using this

theorem stringJoinAppendSingleton (l : List String) (x : String) :
    String.join (l ++ [x]) = String.join l ++ x := by
  simp [String.join, List.foldl_append]

theorem mem_dictEraseKey {ks : List String} {k x : String} :
    x ∈ dictEraseKey ks k ↔ x ∈ ks ∧ x ≠ k := by
  simp [dictEraseKey, List.mem_filter]

theorem not_mem_dictEraseKey_self (ks : List String) (k : String) :
    k ∉ dictEraseKey ks k := by
  intro h
  exact (mem_dictEraseKey.mp h).2 rfl

theorem dictEraseKey_eq_of_not_mem {ks : List String} {k : String} (h : k ∉ ks) :
    dictEraseKey ks k = ks := by
  apply List.filter_eq_self.mpr
  intro a ha
  simp only [ne_eq, decide_eq_true_eq, decide_not]
  simp only [Bool.not_eq_eq_eq_not, Bool.not_true, decide_eq_false_iff_not]
  intro hak
  exact h (hak ▸ ha)

theorem dictEraseKey_idem (ks : List String) (k : String) :
    dictEraseKey (dictEraseKey ks k) k = dictEraseKey ks k :=
  dictEraseKey_eq_of_not_mem (not_mem_dictEraseKey_self ks k)

theorem lookupKey_removeKey {α : Type} (l : List (String × α)) (k : String) :
    lookupKey (removeKey l k) k = none := by
  induction l with
  | nil => rfl
  | cons p rest ih =>
    simp only [removeKey, ne_eq, decide_not] at ih ⊢
    rw [List.filter_cons]
    by_cases hp : p.1 = k
    · simpa [hp] using ih
    · simpa [hp, lookupKey] using ih

theorem removeKey_idem {α : Type} (l : List (String × α)) (k : String) :
    removeKey (removeKey l k) k = removeKey l k := by
  apply List.filter_eq_self.mpr
  intro a ha
  have := List.mem_filter.mp ha
  exact this.2

/-! ## Characterizations of registry operations -/

/-- Derived observation: the registry state `unregister_session` leaves behind. -/
def SessionRegistry.unregisterResult (reg : SessionRegistry) (sid : String) :
    SessionRegistry :=
  match reg.conn with
  | .unavailable => reg
  | .unreachable => reg
  | .reachable store =>
    { reg with conn := .reachable (removeKey store ("session:" ++ sid)) }

theorem unregister_session_eq (reg : SessionRegistry) (sid : String) :
    reg.unregister_session sid = .ok (reg.unregisterResult sid) := by
  cases h : reg.conn <;>
    simp [SessionRegistry.unregister_session, SessionRegistry.unregisterResult,
      redisDelete, h]

theorem unregisterResult_idem (reg : SessionRegistry) (sid : String) :
    (reg.unregisterResult sid).unregisterResult sid = reg.unregisterResult sid := by
  cases h : reg.conn <;>
    simp [SessionRegistry.unregisterResult, h, removeKey_idem]

theorem unregisterResult_hasSession (reg : SessionRegistry) (sid : String) :
    (reg.unregisterResult sid).hasSession sid = false := by
  cases h : reg.conn <;>
    simp [SessionRegistry.unregisterResult, SessionRegistry.hasSession, h,
      lookupKey_removeKey]

/-- Derived observation: the registry state `extend_session_ttl` leaves behind. -/
def SessionRegistry.extendResult (reg : SessionRegistry) (sid : String) (ttl : Nat) :
    SessionRegistry :=
  match reg.conn with
  | .unavailable => reg
  | .unreachable => reg
  | .reachable store =>
    { reg with conn := .reachable (match lookupKey store ("session:" ++ sid) with
        | some e => upsertKey store ("session:" ++ sid) { e with ttl := ttl }
        | none => store) }

theorem extend_session_ttl_eq (reg : SessionRegistry) (sid : String) (ttl : Nat) :
    reg.extend_session_ttl sid ttl = .ok (reg.extendResult sid ttl) := by
  cases h : reg.conn <;>
    simp [SessionRegistry.extend_session_ttl, SessionRegistry.extendResult,
      redisExpire, h]

/-- Derived observation: the manager state after the TTL-refresh step. -/
def KernelManager.extendStateResult (st : KMState) (sid : String) : KMState :=
  match st.registry with
  | none => st
  | some reg => { st with registry := some (reg.extendResult sid 3600) }

theorem extendTTLStep_eq (st : KMState) (sid : String) :
    KernelManager.extendTTLStep st sid = .ok (KernelManager.extendStateResult st sid) := by
  cases h : st.registry <;>
    simp [KernelManager.extendTTLStep, KernelManager.extendStateResult, h,
      extend_session_ttl_eq]

theorem extendStateResult_maps (st : KMState) (sid : String) :
    (KernelManager.extendStateResult st sid).kernels = st.kernels
    ∧ (KernelManager.extendStateResult st sid).kernel_clients = st.kernel_clients := by
  cases h : st.registry <;> simp [KernelManager.extendStateResult, h]

/-- Membership of a session record in the registry as seen through the
manager (false when there is no registry or no reachable store). -/
def KMState.hasRegisteredSession (st : KMState) (sid : String) : Bool :=
  match st.registry with
  | some reg => reg.hasSession sid
  | none => false

/-! ## Claim C4: capacity check precedes creation -/

/-- C4.  When the live-session count has reached the configured ceiling,
`create_session` fails fast with the capacity error: no kernel process is
spawned, and the state — both maps and the registry — is unchanged. -/
theorem C4_capacity_rejection (st : KMState) (freshId : String)
    (outcome : StartupOutcome)
    (hfull : st.max_sessions_per_machine ≤ st.kernels.length) :
    (KernelManager.create_session st freshId outcome).outcome
      = .error (.exception (capacityMessage st.max_sessions_per_machine))
    ∧ (KernelManager.create_session st freshId outcome).state = st
    ∧ (KernelManager.create_session st freshId outcome).spawned = false := by
  unfold KernelManager.create_session
  rw [if_pos hfull]
  exact ⟨rfl, rfl, rfl⟩

def c4State : KMState :=
  { kernels := ["a", "b", "c", "d", "e"], kernel_clients := ["a", "b", "c", "d", "e"],
    max_sessions_per_machine := 5, registry := none }

/-- Witness for C4 at a machine holding five sessions with a ceiling of five. -/
theorem C4_capacity_rejection_witness :
    c4State.max_sessions_per_machine ≤ c4State.kernels.length
    ∧ ((KernelManager.create_session c4State "f" .ok).outcome
        = .error (.exception (capacityMessage c4State.max_sessions_per_machine))
      ∧ (KernelManager.create_session c4State "f" .ok).state = c4State
      ∧ (KernelManager.create_session c4State "f" .ok).spawned = false) :=
  ⟨by decide, C4_capacity_rejection c4State "f" .ok (by decide)⟩

/-! ## Claim C5: registry degrades without raising -/

/-- C5.  With the backing store unreachable (client absent, or every call
raising `RedisError`), no registry operation raises: registration returns
`False` and leaves the registry unchanged, both lookups return `none`,
unregistration and TTL extension are no-ops — and an `execute_code` call for
a session with no local handle then fails with the plain NotFound error
instead of attempting cross-machine routing. -/
theorem C5_registry_degraded (reg : SessionRegistry) (sid : String) (ttl : Nat)
    (st : KMState) (henv : HttpEnv) (events : List KEvent) (code : String) (t : Nat)
    (hdeg : reg.conn = .unavailable ∨ reg.conn = .unreachable)
    (hreg : st.registry = some reg) (hlocal : sid ∉ st.kernel_clients) :
    reg.register_session sid ttl = .ok (false, reg)
    ∧ reg.get_session_machine sid = .ok none
    ∧ reg.get_session_machine_address sid = .ok none
    ∧ reg.unregister_session sid = .ok reg
    ∧ reg.extend_session_ttl sid ttl = .ok reg
    ∧ (KernelManager.execute_code st henv events sid code t true).outcome
        = .error (.valueError ("Session " ++ sid ++ " not found")) := by
  obtain ⟨conn, mid, addr⟩ := reg
  replace hdeg : conn = .unavailable ∨ conn = .unreachable := hdeg
  have hget : SessionRegistry.get_session_machine ⟨conn, mid, addr⟩ sid = .ok none := by
    rcases hdeg with h | h <;> subst h <;> rfl
  refine ⟨?_, hget, ?_, ?_, ?_, ?_⟩
  · rcases hdeg with h | h <;> subst h <;> rfl
  · rcases hdeg with h | h <;> subst h <;> rfl
  · rcases hdeg with h | h <;> subst h <;> rfl
  · rcases hdeg with h | h <;> subst h <;> rfl
  · unfold KernelManager.execute_code
    simp [hlocal, hreg, hget]

def c5Registry : SessionRegistry :=
  { conn := .unreachable, machine_id := "mA", machine_address := "http://a" }

def c5State : KMState :=
  { kernels := [], kernel_clients := [], max_sessions_per_machine := 5,
    registry := some c5Registry }

/-- Witness for C5 with an unreachable store. -/
theorem C5_registry_degraded_witness :
    (c5Registry.conn = .unavailable ∨ c5Registry.conn = .unreachable)
    ∧ c5State.registry = some c5Registry
    ∧ "s9" ∉ c5State.kernel_clients
    ∧ (c5Registry.register_session "s9" 3600 = .ok (false, c5Registry)
      ∧ c5Registry.get_session_machine "s9" = .ok none
      ∧ c5Registry.get_session_machine_address "s9" = .ok none
      ∧ c5Registry.unregister_session "s9" = .ok c5Registry
      ∧ c5Registry.extend_session_ttl "s9" 3600 = .ok c5Registry
      ∧ (KernelManager.execute_code c5State ⟨.error "down"⟩ [] "s9" "x" 30 true).outcome
          = .error (.valueError ("Session " ++ "s9" ++ " not found"))) :=
  ⟨Or.inr rfl, rfl, by decide,
    C5_registry_degraded c5Registry "s9" 3600 c5State ⟨.error "down"⟩ [] "x" 30
      (Or.inr rfl) rfl (by decide)⟩

/-! ## Claim C6: deletion is idempotent -/

theorem delete_session_char (st : KMState) (sid : String)
    (hinv : st.kernels = st.kernel_clients) :
    KernelManager.delete_session st sid
      = (.ok (), { st with kernels := dictEraseKey st.kernels sid,
                           kernel_clients := dictEraseKey st.kernel_clients sid,
                           registry := st.registry.map
                             (fun reg => reg.unregisterResult sid) }) := by
  obtain ⟨ks, cs, mx, r⟩ := st
  replace hinv : ks = cs := hinv
  subst hinv
  unfold KernelManager.delete_session
  by_cases hmem : sid ∈ ks
  · cases r with
    | none => simp [hmem]
    | some reg => simp [hmem, unregister_session_eq]
  · cases r with
    | none => simp [hmem, dictEraseKey_eq_of_not_mem hmem]
    | some reg => simp [hmem, unregister_session_eq, dictEraseKey_eq_of_not_mem hmem]

/-- C6.  On a state whose two kernel maps agree (the reachable states),
`delete_session` succeeds, removes the process-map and client-map entries and
the registry record, and a second, back-to-back call succeeds as a complete
no-op: deleting an absent session is not an error. -/
theorem C6_delete_session_idempotent (st : KMState) (sid : String)
    (hinv : st.kernels = st.kernel_clients) :
    (KernelManager.delete_session st sid).1 = .ok ()
    ∧ sid ∉ (KernelManager.delete_session st sid).2.kernels
    ∧ sid ∉ (KernelManager.delete_session st sid).2.kernel_clients
    ∧ (KernelManager.delete_session st sid).2.hasRegisteredSession sid = false
    ∧ (KernelManager.delete_session (KernelManager.delete_session st sid).2 sid).1
        = .ok ()
    ∧ (KernelManager.delete_session (KernelManager.delete_session st sid).2 sid).2
        = (KernelManager.delete_session st sid).2 := by
  have hD := delete_session_char st sid hinv
  have hinvD : (KernelManager.delete_session st sid).2.kernels
      = (KernelManager.delete_session st sid).2.kernel_clients := by
    rw [hD]
    simp [hinv]
  have hD2 := delete_session_char (KernelManager.delete_session st sid).2 sid hinvD
  refine ⟨?_, ?_, ?_, ?_, ?_, ?_⟩
  · rw [hD]
  · rw [hD]
    exact not_mem_dictEraseKey_self _ _
  · rw [hD]
    exact not_mem_dictEraseKey_self _ _
  · rw [hD]
    cases hr : st.registry with
    | none => simp [KMState.hasRegisteredSession, hr]
    | some reg => simp [KMState.hasRegisteredSession, hr, unregisterResult_hasSession]
  · rw [hD2]
  · rw [hD2, hD]
    cases hr : st.registry with
    | none => simp [hr, dictEraseKey_idem]
    | some reg => simp [hr, dictEraseKey_idem, unregisterResult_idem]

def c6Record : RegRecord :=
  { machine_id := "mA", machine_address := "http://a", session_id := "a" }

def c6Registry : SessionRegistry :=
  { conn := .reachable [("session:a", { value := .record c6Record, ttl := 3600 })],
    machine_id := "mA", machine_address := "http://a" }

def c6State : KMState :=
  { kernels := ["a", "b"], kernel_clients := ["a", "b"],
    max_sessions_per_machine := 5, registry := some c6Registry }

/-- Witness for C6 on a machine holding two sessions, session `a` registered. -/
theorem C6_delete_session_idempotent_witness :
    c6State.kernels = c6State.kernel_clients
    ∧ ((KernelManager.delete_session c6State "a").1 = .ok ()
      ∧ "a" ∉ (KernelManager.delete_session c6State "a").2.kernels
      ∧ "a" ∉ (KernelManager.delete_session c6State "a").2.kernel_clients
      ∧ (KernelManager.delete_session c6State "a").2.hasRegisteredSession "a" = false
      ∧ (KernelManager.delete_session (KernelManager.delete_session c6State "a").2 "a").1
          = .ok ()
      ∧ (KernelManager.delete_session (KernelManager.delete_session c6State "a").2 "a").2
          = (KernelManager.delete_session c6State "a").2) :=
  ⟨rfl, C6_delete_session_idempotent c6State "a" rfl⟩

/-! ## Claim C7: the two NotFound variants are distinct -/

/-- C7.  For an `execute_code` call on a session with no local handle, a
registry resolution to this very machine produces the
registered-but-not-found-locally `ValueError`, while an absent registry entry
produces the plain NotFound `ValueError`, and the two messages differ. -/
theorem C7_notfound_variants (st : KMState) (reg : SessionRegistry)
    (henv : HttpEnv) (events : List KEvent) (sid code : String) (t : Nat)
    (hreg : st.registry = some reg) (hlocal : sid ∉ st.kernel_clients) :
    ((reg.get_session_machine sid = .ok (some reg.machine_id)) →
      (KernelManager.execute_code st henv events sid code t true).outcome
        = .error (.valueError
            ("Session " ++ sid ++ " registered but kernel not found locally")))
    ∧ ((reg.get_session_machine sid = .ok none) →
      (KernelManager.execute_code st henv events sid code t true).outcome
        = .error (.valueError ("Session " ++ sid ++ " not found")))
    ∧ ("Session " ++ sid ++ " registered but kernel not found locally")
        ≠ ("Session " ++ sid ++ " not found") := by
  refine ⟨?_, ?_, ?_⟩
  · intro hm
    unfold KernelManager.execute_code
    simp [hlocal, hreg, hm]
  · intro hm
    unfold KernelManager.execute_code
    simp [hlocal, hreg, hm]
  · intro hcontra
    have hx := stringAppendLeftCancel ("Session " ++ sid)
      (by simpa [String.append_assoc] using hcontra)
    exact absurd hx (by decide)

def c7Record : RegRecord :=
  { machine_id := "mA", machine_address := "http://a", session_id := "s7" }

def c7Registry : SessionRegistry :=
  { conn := .reachable [("session:s7", { value := .record c7Record, ttl := 3600 })],
    machine_id := "mA", machine_address := "http://a" }

def c7State : KMState :=
  { kernels := [], kernel_clients := [], max_sessions_per_machine := 5,
    registry := some c7Registry }

/-- Witness for C7: session `s7` registered to this machine, no local handle. -/
theorem C7_notfound_variants_witness :
    c7State.registry = some c7Registry
    ∧ "s7" ∉ c7State.kernel_clients
    ∧ (((c7Registry.get_session_machine "s7" = .ok (some c7Registry.machine_id)) →
        (KernelManager.execute_code c7State ⟨.error "down"⟩ [] "s7" "x" 30 true).outcome
          = .error (.valueError
              ("Session " ++ "s7" ++ " registered but kernel not found locally")))
      ∧ ((c7Registry.get_session_machine "s7" = .ok none) →
        (KernelManager.execute_code c7State ⟨.error "down"⟩ [] "s7" "x" 30 true).outcome
          = .error (.valueError ("Session " ++ "s7" ++ " not found")))
      ∧ ("Session " ++ "s7" ++ " registered but kernel not found locally")
          ≠ ("Session " ++ "s7" ++ " not found")) :=
  ⟨rfl, by decide,
    C7_notfound_variants c7State c7Registry ⟨.error "down"⟩ [] "s7" "x" 30 rfl (by decide)⟩

/-! ## Claim C9: the two kernel maps stay in sync -/

/-- Derived observation: the pair `register_session` returns. -/
def SessionRegistry.registerOutcome (reg : SessionRegistry) (sid : String) (ttl : Nat) :
    Bool × SessionRegistry :=
  match reg.conn with
  | .unavailable => (false, reg)
  | .unreachable => (false, reg)
  | .reachable store =>
    (true, { reg with conn := .reachable (upsertKey store ("session:" ++ sid)
        { value := .record { machine_id := reg.machine_id,
                             machine_address := reg.machine_address,
                             session_id := sid },
          ttl := ttl }) })

theorem register_session_eq (reg : SessionRegistry) (sid : String) (ttl : Nat) :
    reg.register_session sid ttl = .ok (reg.registerOutcome sid ttl) := by
  cases h : reg.conn <;>
    simp [SessionRegistry.register_session, SessionRegistry.registerOutcome,
      redisSetex, h]

/-- C9.  Starting from a state whose `kernels` and `kernel_clients` maps hold
the same keys, every public operation — `create_session` (on success, on the
capacity rejection, and on the startup-failure rollback), `execute_code`, and
`delete_session` — leaves the two maps with the same keys again, and
`list_sessions` returns exactly the keys of the `kernels` map. -/
theorem C9_maps_in_sync (st : KMState) (freshId : String) (outcome : StartupOutcome)
    (henv : HttpEnv) (events : List KEvent) (sid code : String) (t : Nat) (fwd : Bool)
    (hinv : st.kernels = st.kernel_clients) :
    ((KernelManager.create_session st freshId outcome).state.kernels
      = (KernelManager.create_session st freshId outcome).state.kernel_clients)
    ∧ KernelManager.list_sessions (KernelManager.create_session st freshId outcome).state
      = (KernelManager.create_session st freshId outcome).state.kernels
    ∧ ((KernelManager.execute_code st henv events sid code t fwd).state.kernels
      = (KernelManager.execute_code st henv events sid code t fwd).state.kernel_clients)
    ∧ KernelManager.list_sessions
        (KernelManager.execute_code st henv events sid code t fwd).state
      = (KernelManager.execute_code st henv events sid code t fwd).state.kernels
    ∧ ((KernelManager.delete_session st sid).2.kernels
      = (KernelManager.delete_session st sid).2.kernel_clients)
    ∧ KernelManager.list_sessions (KernelManager.delete_session st sid).2
      = (KernelManager.delete_session st sid).2.kernels := by
  refine ⟨?_, rfl, ?_, rfl, ?_, rfl⟩
  · unfold KernelManager.create_session
    by_cases hcap : st.max_sessions_per_machine ≤ st.kernels.length
    · rw [if_pos hcap]
      exact hinv
    · rw [if_neg hcap]
      cases outcome with
      | fail sp msg => simp [hinv]
      | ok =>
        cases hr : st.registry with
        | none => simp [hr, hinv]
        | some reg => simp [hr, register_session_eq, hinv]
  · unfold KernelManager.execute_code
    by_cases hc : sid ∈ st.kernel_clients
    · simp only [if_pos hc, extendTTLStep_eq]
      cases drainLoop (t * 1000) events 0 [] [] none with
      | timedOut e =>
        simp [(extendStateResult_maps st sid).1, (extendStateResult_maps st sid).2, hinv]
      | completed a b c =>
        simp [(extendStateResult_maps st sid).1, (extendStateResult_maps st sid).2, hinv]
    · rw [if_neg hc]
      repeat' split
      all_goals simp [hinv]
  · rw [delete_session_char st sid hinv]
    simp [hinv]

def c9State : KMState :=
  { kernels := ["a"], kernel_clients := ["a"], max_sessions_per_machine := 5,
    registry := none }

/-- Witness for C9 on a one-session machine without a registry. -/
theorem C9_maps_in_sync_witness :
    c9State.kernels = c9State.kernel_clients
    ∧ (((KernelManager.create_session c9State "f" .ok).state.kernels
        = (KernelManager.create_session c9State "f" .ok).state.kernel_clients)
      ∧ KernelManager.list_sessions (KernelManager.create_session c9State "f" .ok).state
        = (KernelManager.create_session c9State "f" .ok).state.kernels
      ∧ ((KernelManager.execute_code c9State ⟨.error "x"⟩ [] "a" "c" 1 true).state.kernels
        = (KernelManager.execute_code c9State ⟨.error "x"⟩ [] "a" "c" 1 true).state.kernel_clients)
      ∧ KernelManager.list_sessions
          (KernelManager.execute_code c9State ⟨.error "x"⟩ [] "a" "c" 1 true).state
        = (KernelManager.execute_code c9State ⟨.error "x"⟩ [] "a" "c" 1 true).state.kernels
      ∧ ((KernelManager.delete_session c9State "a").2.kernels
        = (KernelManager.delete_session c9State "a").2.kernel_clients)
      ∧ KernelManager.list_sessions (KernelManager.delete_session c9State "a").2
        = (KernelManager.delete_session c9State "a").2.kernels) :=
  ⟨rfl, C9_maps_in_sync c9State "f" .ok ⟨.error "x"⟩ [] "a" "c" 1 true rfl⟩

/-! ## Step equations and lemmas for the output-collection loop -/

theorem drainLoop_nil (tms elapsed : Nat) (o e : List String) (r : Option String) :
    drainLoop tms [] elapsed o e r
      = if tms ≤ elapsed then .timedOut elapsed
        else .timedOut (idleTimeoutAt tms (elapsed + 1100)) := rfl

theorem drainLoop_stream (tms elapsed dt : Nat) (rest : List KEvent)
    (o e : List String) (r : Option String) (name text : String) :
    drainLoop tms (KEvent.iopub dt (.stream name text) :: rest) elapsed o e r
      = if tms ≤ elapsed then .timedOut elapsed
        else if name = "stdout" then drainLoop tms rest (elapsed + dt) (o ++ [text]) e r
        else if name = "stderr" then drainLoop tms rest (elapsed + dt) o (e ++ [text]) r
        else drainLoop tms rest (elapsed + dt) o e r := rfl

theorem drainLoop_executeResult (tms elapsed dt : Nat) (rest : List KEvent)
    (o e : List String) (r : Option String) (tp : String) :
    drainLoop tms (KEvent.iopub dt (.executeResult tp) :: rest) elapsed o e r
      = if tms ≤ elapsed then .timedOut elapsed
        else drainLoop tms rest (elapsed + dt) o e (some tp) := rfl

theorem drainLoop_statusMsg (tms elapsed dt : Nat) (rest : List KEvent)
    (o e : List String) (r : Option String) (s : String) :
    drainLoop tms (KEvent.iopub dt (.statusMsg s) :: rest) elapsed o e r
      = if tms ≤ elapsed then .timedOut elapsed
        else if s = "idle" then .completed o e r
        else drainLoop tms rest (elapsed + dt) o e r := rfl

theorem drainLoop_errorMsg (tms elapsed dt : Nat) (rest : List KEvent)
    (o e : List String) (r : Option String) (tb : List String) :
    drainLoop tms (KEvent.iopub dt (.errorMsg tb) :: rest) elapsed o e r
      = if tms ≤ elapsed then .timedOut elapsed
        else .completed o (e ++ [String.intercalate "\n" tb]) r := rfl

theorem drainLoop_otherMsg (tms elapsed dt : Nat) (rest : List KEvent)
    (o e : List String) (r : Option String) :
    drainLoop tms (KEvent.iopub dt .otherMsg :: rest) elapsed o e r
      = if tms ≤ elapsed then .timedOut elapsed
        else drainLoop tms rest (elapsed + dt) o e r := rfl

theorem drainLoop_shellReply (tms elapsed dt : Nat) (rest : List KEvent)
    (o e : List String) (r : Option String) (status : String) (tb : List String) :
    drainLoop tms (KEvent.shellReply dt status tb :: rest) elapsed o e r
      = if tms ≤ elapsed then .timedOut elapsed
        else if status = "error" then .completed o (e ++ [String.intercalate "\n" tb]) r
        else .completed o e r := rfl

theorem drainLoop_noMsg (tms elapsed : Nat) (rest : List KEvent)
    (o e : List String) (r : Option String) :
    drainLoop tms (KEvent.noMsg :: rest) elapsed o e r
      = if tms ≤ elapsed then .timedOut elapsed
        else drainLoop tms rest (elapsed + 1100) o e r := rfl

/-- Whenever the drain loop raises the timeout error, the clock value at the
failing deadline check is below the budget plus one poll round (1000 ms iopub
wait + 100 ms shell wait): the Timeout surfaces within bounded slack. -/
theorem drainLoop_timedOut_lt (tms : Nat) (events : List KEvent) :
    ∀ (elapsed : Nat) (outL errL : List String) (res : Option String) (e : Nat),
      events.all KEvent.wfB = true →
      elapsed < tms + 1100 →
      drainLoop tms events elapsed outL errL res = .timedOut e →
      e < tms + 1100 := by
  induction events with
  | nil =>
    intro elapsed outL errL res e _hwf hel hrun
    rw [drainLoop_nil] at hrun
    by_cases ht : tms ≤ elapsed
    · rw [if_pos ht] at hrun
      cases hrun
      exact hel
    · rw [if_neg ht] at hrun
      cases hrun
      have hlt : elapsed < tms := Nat.lt_of_not_le ht
      unfold idleTimeoutAt
      omega
  | cons ev rest ih =>
    intro elapsed outL errL res e hwf hel hrun
    rw [List.all_cons, Bool.and_eq_true] at hwf
    obtain ⟨hwfe, hwf2⟩ := hwf
    by_cases ht : tms ≤ elapsed
    · cases ev with
      | iopub dt m =>
        cases m with
        | stream name text =>
          rw [drainLoop_stream, if_pos ht] at hrun
          cases hrun; exact hel
        | executeResult tp =>
          rw [drainLoop_executeResult, if_pos ht] at hrun
          cases hrun; exact hel
        | statusMsg s =>
          rw [drainLoop_statusMsg, if_pos ht] at hrun
          cases hrun; exact hel
        | errorMsg tb =>
          rw [drainLoop_errorMsg, if_pos ht] at hrun
          cases hrun; exact hel
        | otherMsg =>
          rw [drainLoop_otherMsg, if_pos ht] at hrun
          cases hrun; exact hel
      | shellReply dt status tb =>
        rw [drainLoop_shellReply, if_pos ht] at hrun
        cases hrun; exact hel
      | noMsg =>
        rw [drainLoop_noMsg, if_pos ht] at hrun
        cases hrun; exact hel
    · have hlt : elapsed < tms := Nat.lt_of_not_le ht
      cases ev with
      | iopub dt m =>
        have hdt : dt ≤ 1000 := by simpa [KEvent.wfB] using hwfe
        cases m with
        | stream name text =>
          rw [drainLoop_stream, if_neg ht] at hrun
          by_cases h1 : name = "stdout"
          · rw [if_pos h1] at hrun
            exact ih _ _ _ _ _ hwf2 (by omega) hrun
          · rw [if_neg h1] at hrun
            by_cases h2 : name = "stderr"
            · rw [if_pos h2] at hrun
              exact ih _ _ _ _ _ hwf2 (by omega) hrun
            · rw [if_neg h2] at hrun
              exact ih _ _ _ _ _ hwf2 (by omega) hrun
        | executeResult tp =>
          rw [drainLoop_executeResult, if_neg ht] at hrun
          exact ih _ _ _ _ _ hwf2 (by omega) hrun
        | statusMsg s =>
          rw [drainLoop_statusMsg, if_neg ht] at hrun
          by_cases h1 : s = "idle"
          · rw [if_pos h1] at hrun
            cases hrun
          · rw [if_neg h1] at hrun
            exact ih _ _ _ _ _ hwf2 (by omega) hrun
        | errorMsg tb =>
          rw [drainLoop_errorMsg, if_neg ht] at hrun
          cases hrun
        | otherMsg =>
          rw [drainLoop_otherMsg, if_neg ht] at hrun
          exact ih _ _ _ _ _ hwf2 (by omega) hrun
      | shellReply dt status tb =>
        rw [drainLoop_shellReply, if_neg ht] at hrun
        by_cases h1 : status = "error"
        · rw [if_pos h1] at hrun
          cases hrun
        · rw [if_neg h1] at hrun
          cases hrun
      | noMsg =>
        rw [drainLoop_noMsg, if_neg ht] at hrun
        exact ih _ _ _ _ _ hwf2 (by omega) hrun

/-- Observation: the stdout stream texts among a list of channel events. -/
def stdoutTexts : List KEvent → List String
  | [] => []
  | .iopub _ (.stream n t) :: es => if n = "stdout" then t :: stdoutTexts es else stdoutTexts es
  | _ :: es => stdoutTexts es

/-- Observation: the stderr stream texts among a list of channel events. -/
def stderrTexts : List KEvent → List String
  | [] => []
  | .iopub _ (.stream n t) :: es => if n = "stderr" then t :: stderrTexts es else stderrTexts es
  | _ :: es => stderrTexts es

/-- An event the loop consumes without completing: stream text, a computed
result, a non-idle status, an unclassified message, or an empty poll round. -/
def KEvent.passive : KEvent → Bool
  | .iopub _ (.stream _ _) => true
  | .iopub _ (.executeResult _) => true
  | .iopub _ (.statusMsg s) => s ≠ "idle"
  | .iopub _ (.errorMsg _) => false
  | .iopub _ .otherMsg => true
  | .shellReply _ _ _ => false
  | .noMsg => true

/-- When the drain loop reaches an error message after only passive events,
it completes with the stdout texts observed so far all preserved and the
joined traceback appended after the stderr texts observed so far. -/
theorem drainLoop_error_event (tms : Nat) (pre : List KEvent) :
    ∀ (elapsed : Nat) (outL errL : List String) (res : Option String)
      (dt : Nat) (tb : List String) (rest : List KEvent)
      (outF errF : List String) (resF : Option String),
      (∀ ev ∈ pre, ev.passive = true) →
      drainLoop tms (pre ++ KEvent.iopub dt (.errorMsg tb) :: rest) elapsed outL errL res
        = .completed outF errF resF →
      outF = outL ++ stdoutTexts pre
      ∧ errF = errL ++ (stderrTexts pre ++ [String.intercalate "\n" tb]) := by
  induction pre with
  | nil =>
    intro elapsed outL errL res dt tb rest outF errF resF _hp hrun
    rw [List.nil_append, drainLoop_errorMsg] at hrun
    by_cases ht : tms ≤ elapsed
    · rw [if_pos ht] at hrun
      cases hrun
    · rw [if_neg ht] at hrun
      cases hrun
      simp [stdoutTexts, stderrTexts]
  | cons ev pre ih =>
    intro elapsed outL errL res dt tb rest outF errF resF hp hrun
    have hpe : ev.passive = true := hp ev (List.mem_cons_self _ _)
    have hp2 : ∀ x ∈ pre, KEvent.passive x = true :=
      fun x hx => hp x (List.mem_cons_of_mem _ hx)
    rw [List.cons_append] at hrun
    cases ev with
    | iopub dt2 m =>
      cases m with
      | stream name text =>
        rw [drainLoop_stream] at hrun
        by_cases ht : tms ≤ elapsed
        · rw [if_pos ht] at hrun
          cases hrun
        · rw [if_neg ht] at hrun
          by_cases h1 : name = "stdout"
          · rw [if_pos h1] at hrun
            obtain ⟨ho, he⟩ := ih _ _ _ _ _ _ _ _ _ _ hp2 hrun
            constructor
            · rw [ho]
              simp [stdoutTexts, h1]
            · rw [he]
              simp [stderrTexts, h1]
          · rw [if_neg h1] at hrun
            by_cases h2 : name = "stderr"
            · rw [if_pos h2] at hrun
              obtain ⟨ho, he⟩ := ih _ _ _ _ _ _ _ _ _ _ hp2 hrun
              constructor
              · rw [ho]
                simp [stdoutTexts, h2]
              · rw [he]
                simp [stderrTexts, h2]
            · rw [if_neg h2] at hrun
              obtain ⟨ho, he⟩ := ih _ _ _ _ _ _ _ _ _ _ hp2 hrun
              constructor
              · rw [ho]
                simp [stdoutTexts, h1]
              · rw [he]
                simp [stderrTexts, h2]
      | executeResult tp =>
        rw [drainLoop_executeResult] at hrun
        by_cases ht : tms ≤ elapsed
        · rw [if_pos ht] at hrun
          cases hrun
        · rw [if_neg ht] at hrun
          obtain ⟨ho, he⟩ := ih _ _ _ _ _ _ _ _ _ _ hp2 hrun
          constructor
          · rw [ho]
            simp [stdoutTexts]
          · rw [he]
            simp [stderrTexts]
      | statusMsg s =>
        have hs : ¬ s = "idle" := by simpa [KEvent.passive] using hpe
        rw [drainLoop_statusMsg] at hrun
        by_cases ht : tms ≤ elapsed
        · rw [if_pos ht] at hrun
          cases hrun
        · rw [if_neg ht, if_neg hs] at hrun
          obtain ⟨ho, he⟩ := ih _ _ _ _ _ _ _ _ _ _ hp2 hrun
          constructor
          · rw [ho]
            simp [stdoutTexts]
          · rw [he]
            simp [stderrTexts]
      | errorMsg tb2 => simp [KEvent.passive] at hpe
      | otherMsg =>
        rw [drainLoop_otherMsg] at hrun
        by_cases ht : tms ≤ elapsed
        · rw [if_pos ht] at hrun
          cases hrun
        · rw [if_neg ht] at hrun
          obtain ⟨ho, he⟩ := ih _ _ _ _ _ _ _ _ _ _ hp2 hrun
          constructor
          · rw [ho]
            simp [stdoutTexts]
          · rw [he]
            simp [stderrTexts]
    | shellReply dt2 status tb2 => simp [KEvent.passive] at hpe
    | noMsg =>
      rw [drainLoop_noMsg] at hrun
      by_cases ht : tms ≤ elapsed
      · rw [if_pos ht] at hrun
        cases hrun
      · rw [if_neg ht] at hrun
        obtain ⟨ho, he⟩ := ih _ _ _ _ _ _ _ _ _ _ hp2 hrun
        constructor
        · rw [ho]
          simp [stdoutTexts]
        · rw [he]
          simp [stderrTexts]

/-! ## Claim C8: error semantics of a completed local execution -/

/-- C8.  For completed (non-timed-out) local executions, `success` is exactly
"no stderr was observed"; when the channel delivers an error message after
passive events, the result is `success = false`, stderr carries all earlier
stderr texts followed by the joined diagnostic traceback (non-empty whenever
the traceback is), and every stdout text emitted before the error is
preserved in the concatenated stdout. -/
theorem C8_error_and_success_semantics (st : KMState) (henv : HttpEnv)
    (pre rest events2 : List KEvent) (dt : Nat) (tb : List String)
    (sid code : String) (t : Nat) (r r2 : ExecResult)
    (o2 e2 : List String) (res2 : Option String)
    (hsid : sid ∈ st.kernel_clients)
    (hpassive : ∀ ev ∈ pre, ev.passive = true)
    (hout : (KernelManager.execute_code st henv
        (pre ++ KEvent.iopub dt (.errorMsg tb) :: rest) sid code t true).outcome = .ok r)
    (hrun2 : drainLoop (t * 1000) events2 0 [] [] none = .completed o2 e2 res2)
    (hout2 : (KernelManager.execute_code st henv events2 sid code t true).outcome = .ok r2) :
    r.stdout = String.join (stdoutTexts pre)
    ∧ r.stderr = String.join (stderrTexts pre ++ [String.intercalate "\n" tb])
    ∧ r.success = false
    ∧ (String.intercalate "\n" tb ≠ "" → r.stderr ≠ "")
    ∧ (r2.success = true ↔ e2 = [])
    ∧ r2.stdout = String.join o2
    ∧ r2.stderr = String.join e2 := by
  have hmain : r.stdout = String.join (stdoutTexts pre)
      ∧ r.stderr = String.join (stderrTexts pre ++ [String.intercalate "\n" tb])
      ∧ r.success = false := by
    cases hdr : drainLoop (t * 1000) (pre ++ KEvent.iopub dt (.errorMsg tb) :: rest)
        0 [] [] none with
    | timedOut ee =>
      simp only [KernelManager.execute_code, hsid, if_true, extendTTLStep_eq, hdr] at hout
      cases hout
    | completed outF errF resF =>
      obtain ⟨ho, he⟩ := drainLoop_error_event (t * 1000) pre 0 [] [] none dt tb rest
        outF errF resF hpassive hdr
      simp only [KernelManager.execute_code, hsid, if_true, extendTTLStep_eq, hdr] at hout
      cases hout
      rw [List.nil_append] at ho he
      subst ho
      subst he
      refine ⟨rfl, rfl, ?_⟩
      simp
  refine ⟨hmain.1, hmain.2.1, hmain.2.2, ?_, ?_, ?_, ?_⟩
  · intro htb
    rw [hmain.2.1, stringJoinAppendSingleton]
    exact stringAppendNeEmptyRight _ htb
  · simp only [KernelManager.execute_code, hsid, if_true, extendTTLStep_eq, hrun2] at hout2
    cases hout2
    simp [List.length_eq_zero]
  · simp only [KernelManager.execute_code, hsid, if_true, extendTTLStep_eq, hrun2] at hout2
    cases hout2
    rfl
  · simp only [KernelManager.execute_code, hsid, if_true, extendTTLStep_eq, hrun2] at hout2
    cases hout2
    rfl

def c8State : KMState :=
  { kernels := ["s8"], kernel_clients := ["s8"], max_sessions_per_machine := 5,
    registry := none }

def c8Pre : List KEvent := [KEvent.iopub 5 (.stream "stdout" "hi")]

def c8Tb : List String := ["Traceback", "ZeroDivisionError: division by zero"]

def c8Events2 : List KEvent :=
  [KEvent.iopub 5 (.stream "stdout" "ok\n"), KEvent.iopub 2 (.statusMsg "idle")]

def c8R : ExecResult :=
  { stdout := "hi", stderr := "Traceback\nZeroDivisionError: division by zero",
    result := none, success := false }

def c8R2 : ExecResult :=
  { stdout := "ok\n", stderr := "", result := none, success := true }

/-- Witness for C8: one stdout text, then a two-line traceback; and a clean
run that prints and goes idle. -/
theorem C8_error_and_success_semantics_witness :
    "s8" ∈ c8State.kernel_clients
    ∧ (∀ ev ∈ c8Pre, KEvent.passive ev = true)
    ∧ ((KernelManager.execute_code c8State ⟨.error "down"⟩
        (c8Pre ++ KEvent.iopub 3 (.errorMsg c8Tb) :: []) "s8" "1/0" 30 true).outcome
          = .ok c8R)
    ∧ drainLoop (30 * 1000) c8Events2 0 [] [] none = .completed ["ok\n"] [] none
    ∧ ((KernelManager.execute_code c8State ⟨.error "down"⟩ c8Events2 "s8" "1/0" 30
        true).outcome = .ok c8R2)
    ∧ (c8R.stdout = String.join (stdoutTexts c8Pre)
      ∧ c8R.stderr = String.join (stderrTexts c8Pre ++ [String.intercalate "\n" c8Tb])
      ∧ c8R.success = false
      ∧ (String.intercalate "\n" c8Tb ≠ "" → c8R.stderr ≠ "")
      ∧ (c8R2.success = true ↔ ([] : List String) = [])
      ∧ c8R2.stdout = String.join ["ok\n"]
      ∧ c8R2.stderr = String.join ([] : List String)) :=
  ⟨by decide, by decide, rfl, rfl, rfl,
    C8_error_and_success_semantics c8State ⟨.error "down"⟩ c8Pre [] c8Events2 3 c8Tb
      "s8" "1/0" 30 c8R c8R2 ["ok\n"] [] none (by decide) (by decide) rfl rfl rfl⟩

/-! ## Step equations for the Executor collection loop -/

theorem execLoop_nil (ts elapsed : Nat) (so se : String) (p : List Plot)
    (rs : List ExData) :
    execLoop ts [] elapsed so se p rs
      = { stdout := so,
          stderr := se ++ "\nExecution timeout after " ++ toString ts ++ " seconds",
          plots := p, results := rs, interrupted := true } := by
  rw [execLoop.eq_def]
  split <;> rfl

theorem execLoop_stream (ts elapsed dt : Nat) (rest : List ExEvent)
    (so se : String) (p : List Plot) (rs : List ExData) (name text : String) :
    execLoop ts (ExEvent.iopub dt (.stream name text) :: rest) elapsed so se p rs
      = if ts * 1000 < elapsed then
          { stdout := so,
            stderr := se ++ "\nExecution timeout after " ++ toString ts ++ " seconds",
            plots := p, results := rs, interrupted := true }
        else if name = "stdout" then execLoop ts rest (elapsed + dt) (so ++ text) se p rs
        else if name = "stderr" then execLoop ts rest (elapsed + dt) so (se ++ text) p rs
        else execLoop ts rest (elapsed + dt) so se p rs := rfl

theorem execLoop_displayData (ts elapsed dt : Nat) (rest : List ExEvent)
    (so se : String) (p : List Plot) (rs : List ExData) (d : ExData) :
    execLoop ts (ExEvent.iopub dt (.displayData d) :: rest) elapsed so se p rs
      = if ts * 1000 < elapsed then
          { stdout := so,
            stderr := se ++ "\nExecution timeout after " ++ toString ts ++ " seconds",
            plots := p, results := rs, interrupted := true }
        else match d.png with
          | some pd => execLoop ts rest (elapsed + dt) so se (p ++ [.image "png" pd]) rs
          | none => match d.jpeg with
            | some pd => execLoop ts rest (elapsed + dt) so se (p ++ [.image "jpeg" pd]) rs
            | none => match d.html with
              | some hh => execLoop ts rest (elapsed + dt) so se (p ++ [.htmlPlot hh]) rs
              | none => execLoop ts rest (elapsed + dt) so se p rs := rfl

theorem execLoop_executeResult (ts elapsed dt : Nat) (rest : List ExEvent)
    (so se : String) (p : List Plot) (rs : List ExData) (d : ExData) :
    execLoop ts (ExEvent.iopub dt (.executeResult d) :: rest) elapsed so se p rs
      = if ts * 1000 < elapsed then
          { stdout := so,
            stderr := se ++ "\nExecution timeout after " ++ toString ts ++ " seconds",
            plots := p, results := rs, interrupted := true }
        else execLoop ts rest (elapsed + dt) so se p (rs ++ [d]) := rfl

theorem execLoop_statusMsg (ts elapsed dt : Nat) (rest : List ExEvent)
    (so se : String) (p : List Plot) (rs : List ExData) (s : String) :
    execLoop ts (ExEvent.iopub dt (.statusMsg s) :: rest) elapsed so se p rs
      = if ts * 1000 < elapsed then
          { stdout := so,
            stderr := se ++ "\nExecution timeout after " ++ toString ts ++ " seconds",
            plots := p, results := rs, interrupted := true }
        else if s = "idle" then
          { stdout := so, stderr := se, plots := p, results := rs, interrupted := false }
        else execLoop ts rest (elapsed + dt) so se p rs := rfl

theorem execLoop_errorMsg (ts elapsed dt : Nat) (rest : List ExEvent)
    (so se : String) (p : List Plot) (rs : List ExData) (en eva : String)
    (tb : List String) :
    execLoop ts (ExEvent.iopub dt (.errorMsg en eva tb) :: rest) elapsed so se p rs
      = if ts * 1000 < elapsed then
          { stdout := so,
            stderr := se ++ "\nExecution timeout after " ++ toString ts ++ " seconds",
            plots := p, results := rs, interrupted := true }
        else
          { stdout := so,
            stderr := se ++ en ++ ": " ++ eva ++ "\n" ++ String.intercalate "\n" tb,
            plots := p, results := rs, interrupted := false } := rfl

theorem execLoop_otherMsg (ts elapsed dt : Nat) (rest : List ExEvent)
    (so se : String) (p : List Plot) (rs : List ExData) :
    execLoop ts (ExEvent.iopub dt .otherMsg :: rest) elapsed so se p rs
      = if ts * 1000 < elapsed then
          { stdout := so,
            stderr := se ++ "\nExecution timeout after " ++ toString ts ++ " seconds",
            plots := p, results := rs, interrupted := true }
        else execLoop ts rest (elapsed + dt) so se p rs := rfl

theorem execLoop_pollTimeout (ts elapsed : Nat) (rest : List ExEvent)
    (so se : String) (p : List Plot) (rs : List ExData) :
    execLoop ts (ExEvent.pollTimeout :: rest) elapsed so se p rs
      = if ts * 1000 < elapsed then
          { stdout := so,
            stderr := se ++ "\nExecution timeout after " ++ toString ts ++ " seconds",
            plots := p, results := rs, interrupted := true }
        else execLoop ts rest (elapsed + 1000) so se p rs := rfl

theorem execLoop_pollError (ts elapsed : Nat) (rest : List ExEvent)
    (so se : String) (p : List Plot) (rs : List ExData) (m : String) :
    execLoop ts (ExEvent.pollError m :: rest) elapsed so se p rs
      = if ts * 1000 < elapsed then
          { stdout := so,
            stderr := se ++ "\nExecution timeout after " ++ toString ts ++ " seconds",
            plots := p, results := rs, interrupted := true }
        else { stdout := so, stderr := se, plots := p, results := rs,
               interrupted := false } := rfl

/-- Whenever the Executor loop ends through the deadline branch (the branch
that issues `kernel_client.interrupt()`), its stderr carries the appended
timeout note. -/
theorem execLoop_interrupted_stderr (ts : Nat) (evs : List ExEvent) :
    ∀ (elapsed : Nat) (so se : String) (p : List Plot) (rs : List ExData),
      (execLoop ts evs elapsed so se p rs).interrupted = true →
      ∃ s0, (execLoop ts evs elapsed so se p rs).stderr
        = s0 ++ ("\nExecution timeout after " ++ toString ts ++ " seconds") := by
  induction evs with
  | nil =>
    intro elapsed so se p rs _h
    rw [execLoop_nil]
    exact ⟨se, by simp [String.append_assoc]⟩
  | cons ev rest ih =>
    intro elapsed so se p rs h
    by_cases ht : ts * 1000 < elapsed
    all_goals cases ev with
    | iopub dt m =>
      cases m with
      | stream name text =>
        rw [execLoop_stream] at h ⊢
        first
        | (rw [if_pos ht] at h ⊢
           exact ⟨se, by simp [String.append_assoc]⟩)
        | (rw [if_neg ht] at h ⊢
           by_cases h1 : name = "stdout"
           · rw [if_pos h1] at h ⊢
             exact ih _ _ _ _ _ h
           · rw [if_neg h1] at h ⊢
             by_cases h2 : name = "stderr"
             · rw [if_pos h2] at h ⊢
               exact ih _ _ _ _ _ h
             · rw [if_neg h2] at h ⊢
               exact ih _ _ _ _ _ h)
      | displayData d =>
        rw [execLoop_displayData] at h ⊢
        first
        | (rw [if_pos ht] at h ⊢
           exact ⟨se, by simp [String.append_assoc]⟩)
        | (rw [if_neg ht] at h ⊢
           cases hpng : d.png with
           | some pd =>
             rw [hpng] at h
             exact ih _ _ _ _ _ h
           | none =>
             rw [hpng] at h
             cases hjpeg : d.jpeg with
             | some pd =>
               rw [hjpeg] at h
               exact ih _ _ _ _ _ h
             | none =>
               rw [hjpeg] at h
               cases hhtml : d.html with
               | some hh =>
                 rw [hhtml] at h
                 exact ih _ _ _ _ _ h
               | none =>
                 rw [hhtml] at h
                 exact ih _ _ _ _ _ h)
      | executeResult d =>
        rw [execLoop_executeResult] at h ⊢
        first
        | (rw [if_pos ht] at h ⊢
           exact ⟨se, by simp [String.append_assoc]⟩)
        | (rw [if_neg ht] at h ⊢
           exact ih _ _ _ _ _ h)
      | statusMsg s =>
        rw [execLoop_statusMsg] at h ⊢
        first
        | (rw [if_pos ht] at h ⊢
           exact ⟨se, by simp [String.append_assoc]⟩)
        | (rw [if_neg ht] at h ⊢
           by_cases h1 : s = "idle"
           · rw [if_pos h1] at h
             cases h
           · rw [if_neg h1] at h ⊢
             exact ih _ _ _ _ _ h)
      | errorMsg en eva tb =>
        rw [execLoop_errorMsg] at h ⊢
        first
        | (rw [if_pos ht] at h ⊢
           exact ⟨se, by simp [String.append_assoc]⟩)
        | (rw [if_neg ht] at h
           cases h)
      | otherMsg =>
        rw [execLoop_otherMsg] at h ⊢
        first
        | (rw [if_pos ht] at h ⊢
           exact ⟨se, by simp [String.append_assoc]⟩)
        | (rw [if_neg ht] at h ⊢
           exact ih _ _ _ _ _ h)
    | pollTimeout =>
      rw [execLoop_pollTimeout] at h ⊢
      first
      | (rw [if_pos ht] at h ⊢
         exact ⟨se, by simp [String.append_assoc]⟩)
      | (rw [if_neg ht] at h ⊢
         exact ih _ _ _ _ _ h)
    | pollError m =>
      rw [execLoop_pollError] at h ⊢
      first
      | (rw [if_pos ht] at h ⊢
         exact ⟨se, by simp [String.append_assoc]⟩)
      | (rw [if_neg ht] at h
         cases h)

/-! ## Claim C3: timeout with interrupt pairing -/

/-- The Session Manager execution path never sends an interrupt: its only
kernel request is the code submission itself. -/
theorem execute_code_never_interrupts (st : KMState) (henv : HttpEnv)
    (events : List KEvent) (sid code : String) (t : Nat) (fwd : Bool) :
    KernelAction.interrupt
      ∉ (KernelManager.execute_code st henv events sid code t fwd).actions := by
  unfold KernelManager.execute_code
  by_cases hc : sid ∈ st.kernel_clients
  · rw [if_pos hc]
    simp only [extendTTLStep_eq]
    cases drainLoop (t * 1000) events 0 [] [] none <;> simp
  · rw [if_neg hc]
    repeat' split
    all_goals simp

def c3State : KMState :=
  { kernels := ["s1"], kernel_clients := ["s1"], max_sessions_per_machine := 5,
    registry := none }

/-- Counterexample to C3 as stated: a local execution that exhausts its 1 s
budget surfaces the Timeout error, yet the kernel path sends no interrupt at
all — the only request ever sent to the kernel is the code submission. -/
theorem C3_counterexample :
    (KernelManager.execute_code c3State ⟨.error "down"⟩ [KEvent.noMsg] "s1"
        "import time; time.sleep(100)" 1 true).outcome
      = .error (.timeoutError "Code execution timed out after 1 seconds")
    ∧ KernelAction.interrupt ∉ (KernelManager.execute_code c3State ⟨.error "down"⟩
        [KEvent.noMsg] "s1" "import time; time.sleep(100)" 1 true).actions := by
  refine ⟨rfl, ?_⟩
  decide

/-- C3 (amended).  A Timeout always surfaces within one poll round (1.1 s)
beyond the wall-clock budget, and only the container-isolated Executor path
pairs budget exhaustion with an explicit interrupt (recording the timeout
note in stderr); the Session Manager's local kernel path raises the Timeout
error without sending any interrupt. -/
theorem C3_amended_timeout_interrupt (tms e : Nat) (events : List KEvent)
    (exSec : Nat) (exEvents : List ExEvent) (fss : Option String)
    (st : KMState) (henv : HttpEnv) (kevents : List KEvent)
    (sid code ecode : String) (t : Nat) (fwd : Bool)
    (hwf : events.all KEvent.wfB = true)
    (hk : drainLoop tms events 0 [] [] none = .timedOut e)
    (hx : (execLoop exSec exEvents 0 "" "" [] []).interrupted = true) :
    e < tms + 1100
    ∧ KernelAction.interrupt ∈ (Executor.execute_code_run
        { submitError := none, events := exEvents, finalShellStatus := fss } ecode exSec).2
    ∧ (∃ s0, (execLoop exSec exEvents 0 "" "" [] []).stderr
        = s0 ++ ("\nExecution timeout after " ++ toString exSec ++ " seconds"))
    ∧ KernelAction.interrupt
        ∉ (KernelManager.execute_code st henv kevents sid code t fwd).actions := by
  refine ⟨drainLoop_timedOut_lt tms events 0 [] [] none e hwf (by omega) hk, ?_,
    execLoop_interrupted_stderr exSec exEvents 0 "" "" [] [] hx,
    execute_code_never_interrupts st henv kevents sid code t fwd⟩
  unfold Executor.execute_code_run
  simp [hx]

/-- Witness for the amended C3: a 1 s kernel budget exhausted after one empty
poll round, and a 1 s Executor budget exhausted after two poll timeouts. -/
theorem C3_amended_timeout_interrupt_witness :
    ([KEvent.noMsg].all KEvent.wfB = true)
    ∧ drainLoop 1000 [KEvent.noMsg] 0 [] [] none = .timedOut 1100
    ∧ (execLoop 1 [ExEvent.pollTimeout, ExEvent.pollTimeout] 0 "" "" [] []).interrupted
        = true
    ∧ (1100 < 1000 + 1100
      ∧ KernelAction.interrupt ∈ (Executor.execute_code_run
          { submitError := none, events := [ExEvent.pollTimeout, ExEvent.pollTimeout],
            finalShellStatus := none } "x" 1).2
      ∧ (∃ s0, (execLoop 1 [ExEvent.pollTimeout, ExEvent.pollTimeout] 0 "" "" [] []).stderr
          = s0 ++ ("\nExecution timeout after " ++ toString (1 : Nat) ++ " seconds"))
      ∧ KernelAction.interrupt ∉ (KernelManager.execute_code c3State ⟨.error "down"⟩
          [KEvent.noMsg] "s1" "y" 1 true).actions) :=
  ⟨by decide, rfl, rfl,
    C3_amended_timeout_interrupt 1000 1100 [KEvent.noMsg] 1
      [ExEvent.pollTimeout, ExEvent.pollTimeout] none c3State ⟨.error "down"⟩
      [KEvent.noMsg] "s1" "y" "x" 1 true (by decide) rfl rfl⟩

/-! ## Claim C1: forwarding of remote sessions -/

def c1Record : RegRecord :=
  { machine_id := "mB", machine_address := "http://mB.vm.orca-67.internal:8000",
    session_id := "s1" }

def c1Registry : SessionRegistry :=
  { conn := .reachable [("session:s1", { value := .record c1Record, ttl := 3600 })],
    machine_id := "mA", machine_address := "http://mA.vm.orca-67.internal:8000" }

def c1State : KMState :=
  { kernels := [], kernel_clients := [], max_sessions_per_machine := 5,
    registry := some c1Registry }

/-- C1 fails on the code: with session `s1` owned by machine `mB` and absent
locally, `execute_code` reaches the forwarding call, whose keyword
`machine_id` names no parameter of `forward_execute_request` (its parameters
are `machine_address, session_id, code, timeout`) — so the call raises
`TypeError` before any request is issued, for every HTTP environment, and no
schema-normalized result is ever returned. -/
theorem C1_forwarding_raises_typeError (henv : HttpEnv) :
    (KernelManager.execute_code c1State henv [] "s1" "print(1)" 30 true).outcome
      = .error (.typeError
          "forward_execute_request() got an unexpected keyword argument machine_id")
    ∧ (KernelManager.execute_code c1State henv [] "s1" "print(1)" 30 true).state
      = c1State := by
  constructor <;> rfl

/-! ## Claim C2: host reuse for a cached running container -/

def c2State0 : CMState :=
  { redis_available := true, kv := [], docker := [],
    workspace_root := "./workspace",
    createOutcome := .ok { id := "c1", name := "", status := "running" } }

def c2Container : ContainerInfo :=
  { id := "c1", name := "orca-user-tenant1", status := "running" }

def c2State1 : CMState :=
  { redis_available := true,
    kv := [("user:tenant1:container", "c1"), ("container:c1:last_used", "now")],
    docker := [("c1", c2Container)],
    workspace_root := "./workspace",
    createOutcome := .ok { id := "c1", name := "", status := "running" } }

/-- C2 fails on the code: the first call creates and caches container `c1`
(running); the second call reads the cached id — already decoded from bytes
to str — and container_manager.py line 133 calls `.decode()` on it again,
raising `AttributeError`.  The cached running host is never reused, and the
stale-eviction branch below the decode is unreachable. -/
theorem C2_second_call_raises_attributeError :
    ContainerManager.get_or_create_container c2State0 "tenant1"
      = .ok (c2Container, c2State1)
    ∧ ContainerManager.get_or_create_container c2State1 "tenant1"
      = .error (.attributeError "str object has no attribute decode") := by
  constructor <;> rfl

/-! ## Claim C10: the Executor never propagates exceptions -/

/-- C10.  `Executor.execute` is total — every call returns a result — and
when the body (host resolution, kernel connection, or execution) raises, the
returned result is exactly the error-shaped dictionary with
`Execution error: <cause>` as its stderr. -/
theorem C10_execute_never_raises (cm cm2 : CMState) (cenv cenv2 : ClientEnv)
    (xenv xenv2 : ExecEnv) (uid uid2 code code2 : String) (t t2 : Nat) (e : PyErr)
    (hbody : Executor.executeBody cm cenv xenv uid code t = .error e) :
    (Executor.execute cm2 cenv2 xenv2 uid2 code2 t2).isOk = true
    ∧ Executor.execute cm cenv xenv uid code t
      = .ok { stdout := "", stderr := "Execution error: " ++ e.msg, plots := [],
              results := [], success := false } := by
  constructor
  · unfold Executor.execute
    cases Executor.executeBody cm2 cenv2 xenv2 uid2 code2 t2 <;> rfl
  · unfold Executor.execute
    rw [hbody]

def c10State : CMState :=
  { redis_available := true,
    kv := [("user:tenant1:container", "c1"), ("container:c1:last_used", "now")],
    docker := [("c1", { id := "c1", name := "orca-user-tenant1", status := "running" })],
    workspace_root := "./workspace",
    createOutcome := .ok { id := "c1", name := "", status := "running" } }

def c10ClientEnv : ClientEnv :=
  { cachedProbeAlive := none, connectionFileExists := true, kernelInfoError := none }

def c10ExecEnv : ExecEnv :=
  { submitError := none, events := [], finalShellStatus := none }

/-- Witness for C10: host resolution raises (the cached-id double decode of
C2), and `execute` still returns a result, the error-shaped dictionary. -/
theorem C10_execute_never_raises_witness :
    Executor.executeBody c10State c10ClientEnv c10ExecEnv "tenant1" "x" 1
      = .error (.attributeError "str object has no attribute decode")
    ∧ ((Executor.execute c10State c10ClientEnv c10ExecEnv "tenant1" "x" 1).isOk = true
      ∧ Executor.execute c10State c10ClientEnv c10ExecEnv "tenant1" "x" 1
        = .ok { stdout := "",
                stderr := "Execution error: "
                  ++ (PyErr.attributeError "str object has no attribute decode").msg,
                plots := [], results := [], success := false }) :=
  ⟨rfl, C10_execute_never_raises c10State c10State c10ClientEnv c10ClientEnv c10ExecEnv
    c10ExecEnv "tenant1" "tenant1" "x" "x" 1 1
    (.attributeError "str object has no attribute decode") rfl⟩
